import Mathlib

/-!
Verification of the session-replay recording pipeline of
`belgattitude/sentry-javascript` (packages/replay).

The repository ships the data model in `packages/replay/src/types.ts`
(Session, Sampled, EventBuffer, SendReplayData, PopEventContext,
InternalEventContext, WorkerRequest, WorkerResponse, ReplayContainer,
ReplayPluginOptions).  Those type declarations are embedded below as Lean
structures and inductives.  The implementations behind the interfaces
(flush procedure, debounce scheduler, sampler, worker bridge, expiry
check) are not part of the shown sources, so the corresponding operational
definitions are modelled from the specification, each marked
`Modelled from the spec:` in its doc comment.
-/

namespace Replay

/-- A recorded event (`RecordingEvent = eventWithTime` in the source; the
event payload is opaque to this subsystem, only its timestamp is ordered). -/
structure RecordingEvent where
  timestamp : Nat
  payload : String
  deriving Repr, DecidableEq

/-- `Sampled` from the source: `false | 'session' | 'error'`.
`notSampled` stands for the literal `false`. -/
inductive Sampled where
  | notSampled
  | sessionSampled
  | errorSampled
  deriving Repr, DecidableEq

/-- `Session` from the source (`types.ts`, lines 232-260). -/
structure Session where
  id : String
  started : Nat
  lastActivity : Nat
  segmentId : Nat
  previousSessionId : Option String
  sampled : Sampled
  deriving Repr, DecidableEq

/-- `SampleRates` from the source: both rates are numbers in [0, 1]. -/
structure SampleRates where
  sessionSampleRate : Rat
  errorSampleRate : Rat
  deriving Repr, DecidableEq

/-- `SessionOptions` from the source: sample rates plus `stickySession`. -/
structure SessionOptions extends SampleRates where
  stickySession : Bool
  deriving Repr, DecidableEq

/-- `ReplayPluginOptions` from the source (the `_experiments` bag is
dropped: it is declared explicitly non-contractual in the source). -/
structure ReplayPluginOptions extends SessionOptions where
  flushMinDelay : Nat
  flushMaxDelay : Nat
  useCompression : Bool
  maskAllText : Bool
  blockAllMedia : Bool
  deriving Repr, DecidableEq

/-- A JavaScript `Set` of strings, as used by `InternalEventContext`:
insertion-ordered and duplicate-free by construction of `add`. -/
structure JSSet where
  elems : List String
  deriving Repr, DecidableEq

/-- `Set.add`: appends the element unless already present (JS semantics). -/
def JSSet.add (s : JSSet) (x : String) : JSSet :=
  if x ∈ s.elems then s else ⟨s.elems ++ [x]⟩

/-- `Array.from(set)`: the elements in insertion order. -/
def JSSet.toArray (s : JSSet) : List String :=
  s.elems

/-- The empty set. -/
def JSSet.empty : JSSet := ⟨[]⟩

/-- `InternalEventContext` from the source: set-valued `errorIds` and
`traceIds`, plus session-level url/timestamp data and `earliestEvent`. -/
structure InternalEventContext where
  initialUrl : String
  initialTimestamp : Nat
  urls : List String
  errorIds : JSSet
  traceIds : JSSet
  earliestEvent : Option Nat
  deriving Repr, DecidableEq

/-- `PopEventContext` from the source: the array-valued form handed to the
transport (`errorIds`, `traceIds`, `urls` are arrays, never sets). -/
structure PopEventContext where
  initialUrl : String
  initialTimestamp : Nat
  urls : List String
  errorIds : List String
  traceIds : List String
  deriving Repr, DecidableEq

/-- `SendReplayData` from the source (`types.ts`, lines 10-19).
`recordingData` is the opaque drained payload. -/
structure SendReplayData where
  recordingData : List RecordingEvent
  replayId : String
  segmentId : Nat
  includeReplayStartTimestamp : Bool
  eventContext : PopEventContext
  timestamp : Nat
  session : Session
  options : ReplayPluginOptions
  deriving Repr, DecidableEq

/-- `WorkerRequest` from the source (`types.ts`, lines 24-28); `args` is
`unknown[]`, modelled as opaque strings. -/
structure WorkerRequest where
  id : Nat
  method : String
  args : List String
  deriving Repr, DecidableEq

/-- `WorkerResponse` from the source (`types.ts`, lines 41-46); `response`
is `unknown`, modelled as an opaque string. -/
structure WorkerResponse where
  id : Nat
  method : String
  success : Bool
  response : String
  deriving Repr, DecidableEq

/-! ## Event Buffer -/

/-- The in-process event-buffer strategy satisfying the `EventBuffer`
contract of the source: it holds `pendingEvents` in insertion order. -/
structure SimpleEventBuffer where
  pendingEvents : List RecordingEvent
  deriving Repr, DecidableEq

/-- `pendingLength` from the source contract: the number of buffered raw
events. -/
def SimpleEventBuffer.pendingLength (b : SimpleEventBuffer) : Nat :=
  b.pendingEvents.length

/-- `addEvent`: appends the event.  Modelled from the spec: the event is
always appended, never substituted, also when `isCheckout` is true. -/
def SimpleEventBuffer.addEvent (b : SimpleEventBuffer) (e : RecordingEvent)
    (_isCheckout : Bool := false) : SimpleEventBuffer :=
  ⟨b.pendingEvents ++ [e]⟩

/-- `finish`: Modelled from the spec: drains and returns the accumulated
recording data and resets internal state to empty; safe with zero pending
events (the implementation of `finish` is not among the shown sources). -/
def SimpleEventBuffer.finish (b : SimpleEventBuffer) :
    List RecordingEvent × SimpleEventBuffer :=
  (b.pendingEvents, ⟨[]⟩)

/-- The empty buffer. -/
def SimpleEventBuffer.empty : SimpleEventBuffer := ⟨[]⟩

/-! ## Session expiry and rotation -/

/-- Modelled from the spec: a session is expired iff
`now − lastActivity > sessionIdleTimeout` or `now − started > sessionMaxAge`
(the expiry-check implementation is not among the shown sources). -/
def sessionExpired (s : Session) (now idleTimeout maxAge : Nat) : Bool :=
  decide (now - s.lastActivity > idleTimeout) ||
    decide (now - s.started > maxAge)

/-- Modelled from the spec: session creation assigns a fresh opaque id,
`started = lastActivity = now`, `segmentId = 0`, and carries forward the
replaced session's id as `previousSessionId`. -/
def rotateSession (freshId : String) (now : Nat) (sampledDecision : Sampled)
    (old : Session) : Session :=
  { id := freshId
    started := now
    lastActivity := now
    segmentId := 0
    previousSessionId := some old.id
    sampled := sampledDecision }

/-! ## Flush procedure -/

/-- The mutable state owned by the Replay Container that a flush touches:
the current `Session`, the event buffer, and the internal event context. -/
structure ReplayState where
  session : Session
  buffer : SimpleEventBuffer
  context : InternalEventContext
  options : ReplayPluginOptions
  deriving Repr, DecidableEq

/-- Modelled from the spec: whether the internal context changed since the
last segment reset — any error id, trace id or visited url accumulated. -/
def contextChanged (ctx : InternalEventContext) : Bool :=
  !ctx.errorIds.elems.isEmpty || !ctx.traceIds.elems.isEmpty ||
    !ctx.urls.isEmpty

/-- Modelled from the spec: the set-to-array boundary conversion — the
`PopEventContext` handed to the transport derives `errorIds`, `traceIds`
and `urls` as arrays from the internal set-based context. -/
def popEventContext (ctx : InternalEventContext) : PopEventContext :=
  { initialUrl := ctx.initialUrl
    initialTimestamp := ctx.initialTimestamp
    urls := ctx.urls
    errorIds := ctx.errorIds.toArray
    traceIds := ctx.traceIds.toArray }

/-- Modelled from the spec: resetting the internal context accumulator
after a flushed segment (segment-scoped fields cleared; session-scoped
`initialUrl`/`initialTimestamp` kept). -/
def resetContext (ctx : InternalEventContext) : InternalEventContext :=
  { ctx with
    urls := []
    errorIds := JSSet.empty
    traceIds := JSSet.empty
    earliestEvent := none }

/-- Modelled from the spec: assembling `SendReplayData` from the drained
payload, the current `PopEventContext`, the session snapshot, and
`includeReplayStartTimestamp` (true only for the very first segment of a
session). -/
def assembleSendReplayData (st : ReplayState) (payload : List RecordingEvent)
    (now : Nat) : SendReplayData :=
  { recordingData := payload
    replayId := st.session.id
    segmentId := st.session.segmentId
    includeReplayStartTimestamp := st.session.segmentId == 0
    eventContext := popEventContext st.context
    timestamp := now
    session := st.session
    options := st.options }

/-- The transport collaborator's acknowledgment of one send attempt. -/
inductive TransportResult where
  | ok
  | transportError
  deriving Repr, DecidableEq

/-- The observable outcome of one flush. -/
inductive FlushOutcome where
  | skipped
  | sent (data : SendReplayData)
  | errorDropped
  deriving Repr, DecidableEq

/-- Whether the flush would be a no-op: drained payload empty and no
context changed. -/
def isNoopFlush (st : ReplayState) : Bool :=
  st.buffer.pendingEvents.isEmpty && !contextChanged st.context

/-- Modelled from the spec: the flush procedure — (1) drain the buffer via
`finish()`; (2) if the drained payload is empty and no context changed,
skip sending entirely (segment counter not incremented); (3) otherwise
assemble `SendReplayData`; (4) hand off to the transport; (5) on
acknowledged send increment `segmentId`, reset the context accumulator and
advance `lastActivity`; on transport failure leave the segment counter and
context unadvanced and drop the payload without retry. -/
def flushStep (transport : TransportResult) (st : ReplayState) (now : Nat) :
    ReplayState × FlushOutcome :=
  let drained := st.buffer.finish
  let stDrained := { st with buffer := drained.2 }
  if isNoopFlush st then
    (stDrained, .skipped)
  else
    match transport with
    | .ok =>
        ({ stDrained with
            session := { st.session with
              segmentId := st.session.segmentId + 1
              lastActivity := now }
            context := resetContext st.context },
          .sent (assembleSendReplayData st drained.1 now))
    | .transportError => (stDrained, .errorDropped)

/-! ## Sampler and error upgrade -/

/-- Modelled from the spec: the Sampler draws one independent random value;
if within `sessionSampleRate` the result is `"session"`, otherwise the
session starts as `false` (eligible for an error-triggered upgrade). -/
def sampleSession (draw : Rat) (rates : SampleRates) : Sampled :=
  if draw < rates.sessionSampleRate then .sessionSampled else .notSampled

/-- Modelled from the spec: `errorSampleRate` is consulted only at the
moment an error-worthy event occurs on an unsampled session — if within
range, `sampled` flips from `false` to `"error"` exactly once; a session
already sampled is left untouched (no reassignment). -/
def handleErrorEvent (draw : Rat) (rates : SampleRates) (s : Session) :
    Session :=
  match s.sampled with
  | .notSampled =>
      if draw < rates.errorSampleRate then { s with sampled := .errorSampled }
      else s
  | _ => s

/-! ## Flush debounce scheduler -/

/-- Modelled from the spec: the debounce-with-ceiling loop.  `deadline` is
the currently scheduled fire time and `startPlusMax` is the hard ceiling
(accumulation start plus `flushMaxDelay`).  A qualifying update arriving
before the deadline restarts the quiet-period timer — the new deadline is
the update time plus `flushMinDelay`, capped by the ceiling; an update at
or after the deadline no longer delays it.  The result is the time the
first flush fires. -/
def debounceLoop (minDelay startPlusMax : Nat) :
    Nat → List Nat → Nat
  | deadline, [] => deadline
  | deadline, u :: us =>
      if u < deadline then
        debounceLoop minDelay startPlusMax (min (u + minDelay) startPlusMax) us
      else deadline

/-- Modelled from the spec: the time of the first flush given the first
qualifying update at `first` and later updates `rest`, under
`flushMinDelay`/`flushMaxDelay`. -/
def firstFlushTime (minDelay maxDelay first : Nat) (rest : List Nat) : Nat :=
  debounceLoop minDelay (first + maxDelay)
    (min (first + minDelay) (first + maxDelay)) rest

/-! ## Compression worker bridge -/

/-- The caller-visible state of one bridged call's promise. -/
inductive PromiseState where
  | stillPending
  | resolvedWith (response : String)
  | rejectedWith (response : String)
  deriving Repr, DecidableEq

/-- Modelled from the spec: the bridge state — the next request id to
hand out, the promise ledger keyed by request id, and the destroyed flag. -/
structure WorkerBridge where
  nextId : Nat
  promises : List (Nat × PromiseState)
  destroyed : Bool
  deriving Repr, DecidableEq

/-- Modelled from the spec: each call is wrapped in a monotonically
increasing request id and registers a pending promise under that id. -/
def WorkerBridge.postRequest (b : WorkerBridge) (method : String)
    (args : List String) : WorkerRequest × WorkerBridge :=
  ({ id := b.nextId, method := method, args := args },
    { b with
      nextId := b.nextId + 1
      promises := b.promises ++ [(b.nextId, .stillPending)] })

/-- The promise registered under request id `k`, if any (first match in
the ledger). -/
def findPromise (k : Nat) : List (Nat × PromiseState) → Option PromiseState
  | [] => none
  | p :: ps => if p.1 = k then some p.2 else findPromise k ps

/-- Modelled from the spec: responses are correlated back to the pending
caller's promise solely by id; a response with no matching pending entry,
or arriving after `destroy()`, is ignored; on `success=false` the promise
is rejected with the carried payload. -/
def WorkerBridge.handleResponse (b : WorkerBridge) (resp : WorkerResponse) :
    WorkerBridge :=
  if b.destroyed then b
  else
    match findPromise resp.id b.promises with
    | some .stillPending =>
        { b with
          promises := b.promises.map fun p =>
            if p.1 = resp.id then
              (p.1,
                if resp.success then PromiseState.resolvedWith resp.response
                else PromiseState.rejectedWith resp.response)
            else p }
    | _ => b

/-- Modelled from the spec: `destroy()` tears the bridge down; responses
arriving afterward are ignored. -/
def WorkerBridge.destroy (b : WorkerBridge) : WorkerBridge :=
  { b with destroyed := true }

/-! ## Replay container -/

/-- The `ReplayContainer` state from the source interface: `session` may
be `undefined` and `eventBuffer` may be `null` (both are `Option` here). -/
structure ContainerState where
  session : Option Session
  eventBuffer : Option SimpleEventBuffer
  enabled : Bool
  paused : Bool
  options : ReplayPluginOptions
  deriving Repr, DecidableEq

/-- `getSessionId()` from the source: `string | undefined` — the current
session id, or `undefined` when no session exists. -/
def ContainerState.getSessionId (c : ContainerState) : Option String :=
  c.session.map Session.id

/-- `isEnabled()` from the source interface. -/
def ContainerState.isEnabled (c : ContainerState) : Bool :=
  c.enabled

/-- `isPaused()` from the source interface. -/
def ContainerState.isPaused (c : ContainerState) : Bool :=
  c.paused

/-- Modelled from the spec: `triggerUserActivity()` updates
`lastActivity`; with no session it is a safe no-op. -/
def ContainerState.triggerUserActivity (c : ContainerState) (now : Nat) :
    ContainerState :=
  match c.session with
  | none => c
  | some s => { c with session := some { s with lastActivity := now } }

/-- Modelled from the spec: `checkAndHandleExpiredSession()` — checks the
expiry cadence and, when expiry fires, replaces the session (fresh id,
fresh sampling decision from `draw`, `segmentId = 0`); returns whether the
session was rotated; it does not itself flush (the event buffer is left
untouched and no `SendReplayData` is produced). -/
def checkAndHandleExpiredSession (freshId : String) (draw : Rat)
    (now idleTimeout maxAge : Nat) (c : ContainerState) :
    ContainerState × Bool :=
  match c.session with
  | none => (c, false)
  | some s =>
      if sessionExpired s now idleTimeout maxAge then
        ({ c with
            session := some
              (rotateSession freshId now
                (sampleSession draw c.options.toSampleRates) s) },
          true)
      else (c, false)

/-! ## Concrete sample values used by witnesses -/

/-- A concrete options record. -/
def exOptions : ReplayPluginOptions :=
  { sessionSampleRate := 1
    errorSampleRate := 1
    stickySession := false
    flushMinDelay := 1000
    flushMaxDelay := 5000
    useCompression := true
    maskAllText := true
    blockAllMedia := true }

/-- A concrete session-sampled session at segment 0. -/
def exSession : Session :=
  { id := "s1"
    started := 0
    lastActivity := 0
    segmentId := 0
    previousSessionId := none
    sampled := .sessionSampled }

/-- A concrete internal context with accumulated ids and one visited url. -/
def exContext : InternalEventContext :=
  { initialUrl := "https://example.test/"
    initialTimestamp := 0
    urls := ["https://example.test/a"]
    errorIds := ⟨["e1"]⟩
    traceIds := ⟨["t1"]⟩
    earliestEvent := some 5 }

/-- A concrete non-noop replay state: one buffered event, changed context. -/
def exState : ReplayState :=
  { session := exSession
    buffer := ⟨[⟨1, "ev"⟩]⟩
    context := exContext
    options := exOptions }

/-- A concrete no-op replay state: empty buffer, unchanged context. -/
def exNoopState : ReplayState :=
  { exState with
    buffer := ⟨[]⟩
    context := { exContext with
      urls := []
      errorIds := JSSet.empty
      traceIds := JSSet.empty } }

/-- A concrete unsampled session (sampling draw missed the session rate). -/
def exUnsampled : Session :=
  { exSession with sampled := .notSampled }

/-- Concrete sample rates with `errorSampleRate = 1.0`. -/
def exRates : SampleRates :=
  { sessionSampleRate := 1, errorSampleRate := 1 }

/-- A concrete live bridge with two in-flight requests. -/
def exBridge : WorkerBridge :=
  { nextId := 2
    promises := [(0, .stillPending), (1, .stillPending)]
    destroyed := false }

/-- A concrete failed worker response for request id 0. -/
def exResponse : WorkerResponse :=
  { id := 0, method := "finish", success := false, response := "boom" }

/-- A concrete container holding a long-idle (expired) session. -/
def exExpiredContainer : ContainerState :=
  { session := some exSession
    eventBuffer := none
    enabled := true
    paused := false
    options := exOptions }

/-- A concrete container with no session and no buffer. -/
def exEmptyContainer : ContainerState :=
  { session := none
    eventBuffer := none
    enabled := false
    paused := false
    options := exOptions }

end Replay

/-! # Theorems -/

open Replay

/-- Claim C6: `finish()` drains the buffer — it returns the accumulated
recording data and leaves the buffer logically empty (`pendingLength = 0`)
— and `finish()` on a buffer with zero pending events succeeds with the
well-defined empty payload rather than failing. -/
theorem finish_drains_and_is_safe_on_empty :
    (∀ b : SimpleEventBuffer,
        (b.finish.1 = b.pendingEvents) ∧ (b.finish.2.pendingLength = 0)) ∧
      SimpleEventBuffer.empty.finish = ([], SimpleEventBuffer.empty) :=
  ⟨fun _ => ⟨rfl, rfl⟩, rfl⟩

/-- Claim C1: a flush whose send is acknowledged increments the session's
`segmentId` by exactly 1, and a no-op flush (drained payload empty and no
context changed) never increments `segmentId`, whatever the transport
would have answered. -/
theorem segmentId_increments_only_on_acknowledged_send :
    ∀ (st : ReplayState) (now : Nat) (tr : TransportResult),
      ((flushStep .ok st now).1.session.segmentId =
        if isNoopFlush st then st.session.segmentId
        else st.session.segmentId + 1) ∧
      (isNoopFlush st = true →
        (flushStep tr st now).1.session.segmentId = st.session.segmentId) := by
  intro st now tr
  constructor
  · by_cases h : isNoopFlush st = true
    · simp [flushStep, h]
    · simp only [Bool.not_eq_true] at h
      cases tr <;> simp [flushStep, h]
  · intro h
    cases tr <;> simp [flushStep, h]

/-- Witness for C1: on a concrete no-op state an acknowledged flush leaves
`segmentId` at its old value. -/
theorem segmentId_increments_only_on_acknowledged_send_witness :
    (flushStep .ok exNoopState 100).1.session.segmentId =
      exNoopState.session.segmentId :=
  (segmentId_increments_only_on_acknowledged_send exNoopState 100 .ok).2 rfl

/-- Claim C3: a flush whose transport send fails leaves the session (in
particular `segmentId`) and the internal event context unchanged, and the
drained payload is dropped — the buffer ends empty and the outcome is
never a send, so the same segment's data cannot be sent twice. -/
theorem transport_failure_is_atomic_and_drops_payload :
    ∀ (st : ReplayState) (now : Nat),
      (flushStep .transportError st now).1.session = st.session ∧
      (flushStep .transportError st now).1.context = st.context ∧
      (flushStep .transportError st now).1.buffer = SimpleEventBuffer.empty ∧
      ((flushStep .transportError st now).2 = .skipped ∨
        (flushStep .transportError st now).2 = .errorDropped) := by
  intro st now
  by_cases h : isNoopFlush st = true
  · simp [flushStep, h, SimpleEventBuffer.finish, SimpleEventBuffer.empty]
  · simp only [Bool.not_eq_true] at h
    simp [flushStep, h, SimpleEventBuffer.finish, SimpleEventBuffer.empty]

/-- Claim C5: the `SendReplayData` handed to the transport carries the
context in `PopEventContext` form — `errorIds`, `traceIds` and `urls` as
arrays derived from the internal set-based context — and
`includeReplayStartTimestamp` is true iff the flush is for the session's
very first segment; every non-skipped acknowledged flush emits exactly
this assembly over the drained payload. -/
theorem sendReplayData_assembly :
    ∀ (st : ReplayState) (payload : List RecordingEvent) (now : Nat),
      ((assembleSendReplayData st payload now).eventContext =
        popEventContext st.context) ∧
      ((popEventContext st.context).errorIds = st.context.errorIds.toArray ∧
        (popEventContext st.context).traceIds = st.context.traceIds.toArray ∧
        (popEventContext st.context).urls = st.context.urls) ∧
      ((assembleSendReplayData st payload now).includeReplayStartTimestamp =
          true ↔ st.session.segmentId = 0) ∧
      (isNoopFlush st = false →
        (flushStep .ok st now).2 =
          .sent (assembleSendReplayData st st.buffer.pendingEvents now)) := by
  intro st payload now
  refine ⟨rfl, ⟨rfl, rfl, rfl⟩, ?_, ?_⟩
  · simp [assembleSendReplayData]
  · intro h
    simp [flushStep, h, SimpleEventBuffer.finish]

/-- Witness for C5: on a concrete non-noop state the acknowledged flush
emits the assembled `SendReplayData` over the drained payload. -/
theorem sendReplayData_assembly_witness :
    (flushStep .ok exState 100).2 =
      .sent (assembleSendReplayData exState exState.buffer.pendingEvents 100) :=
  (sendReplayData_assembly exState [] 100).2.2.2 rfl

/-- Claim C8: a session is expired iff
`now − lastActivity > sessionIdleTimeout` or `now − started > sessionMaxAge`,
and the replacement session built on expiry starts over with
`segmentId = 0` (carrying the old id as `previousSessionId`). -/
theorem sessionExpired_iff_and_rotation_resets :
    (∀ (s : Session) (now idleTimeout maxAge : Nat),
        sessionExpired s now idleTimeout maxAge = true ↔
          (now - s.lastActivity > idleTimeout ∨ now - s.started > maxAge)) ∧
      (∀ (freshId : String) (now : Nat) (d : Sampled) (old : Session),
        (rotateSession freshId now d old).segmentId = 0 ∧
          (rotateSession freshId now d old).previousSessionId = some old.id) :=
  ⟨fun s now idleTimeout maxAge => by
      simp [sessionExpired],
    fun _ _ _ _ => ⟨rfl, rfl⟩⟩

/-- The debounce loop never fires past the hard ceiling: if the scheduled
deadline is at most `startPlusMax`, so is the final fire time. -/
lemma debounceLoop_le_ceiling (minDelay startPlusMax : Nat) :
    ∀ (us : List Nat) (deadline : Nat), deadline ≤ startPlusMax →
      debounceLoop minDelay startPlusMax deadline us ≤ startPlusMax := by
  intro us
  induction us with
  | nil => intro d h; simpa [debounceLoop] using h
  | cons u t ih =>
      intro d h
      by_cases hu : u < d
      · simp only [debounceLoop, if_pos hu]
        exact ih _ (min_le_right _ _)
      · simp only [debounceLoop, if_neg hu]
        exact h

/-- Claim C2: under the debounce-with-ceiling scheduler every qualifying
update restarts the `flushMinDelay` quiet-period timer, yet the first
flush fires no later than `flushMaxDelay` after accumulation began; with
updates only at t=0 and t=200 (min 1000, max 5000) the flush fires at
t=1200, and with continuous updates every 500ms it fires exactly at the
ceiling t=5000. -/
theorem debounce_ceiling_and_quiet_period :
    (∀ (minDelay maxDelay first : Nat) (rest : List Nat),
        firstFlushTime minDelay maxDelay first rest ≤ first + maxDelay) ∧
      firstFlushTime 1000 5000 0 [200] = 1200 ∧
      firstFlushTime 1000 5000 0
          [500, 1000, 1500, 2000, 2500, 3000, 3500, 4000, 4500] = 5000 := by
  refine ⟨?_, by decide, by decide⟩
  intro minDelay maxDelay first rest
  exact debounceLoop_le_ceiling _ _ _ _ (min_le_right _ _)

/-- Claim C4: on an unsampled session a passing error draw flips `sampled`
from `false` to `"error"` exactly once — a second qualifying error event
leaves the session untouched (no reassignment) — an already-sampled
session is never touched, and `sampled` never leaves
`{false, "session", "error"}`. -/
theorem error_upgrade_one_shot :
    ∀ (d1 d2 : Rat) (rates : SampleRates) (s : Session),
      (s.sampled = .notSampled → d1 < rates.errorSampleRate →
        ((handleErrorEvent d1 rates s).sampled = .errorSampled ∧
          handleErrorEvent d2 rates (handleErrorEvent d1 rates s) =
            handleErrorEvent d1 rates s)) ∧
      (s.sampled ≠ .notSampled → handleErrorEvent d1 rates s = s) ∧
      ((handleErrorEvent d1 rates s).sampled = .notSampled ∨
        (handleErrorEvent d1 rates s).sampled = .sessionSampled ∨
        (handleErrorEvent d1 rates s).sampled = .errorSampled) := by
  intro d1 d2 rates s
  refine ⟨?_, ?_, ?_⟩
  · intro hs hlt
    have h1 : (handleErrorEvent d1 rates s).sampled = .errorSampled := by
      simp [handleErrorEvent, hs, hlt]
    refine ⟨h1, ?_⟩
    generalize hgen : handleErrorEvent d1 rates s = t at h1 ⊢
    simp [handleErrorEvent, h1]
  · intro hs
    cases h : s.sampled with
    | notSampled => exact absurd h hs
    | sessionSampled => simp [handleErrorEvent, h]
    | errorSampled => simp [handleErrorEvent, h]
  · cases hv : (handleErrorEvent d1 rates s).sampled with
    | notSampled => exact Or.inl rfl
    | sessionSampled => exact Or.inr (Or.inl rfl)
    | errorSampled => exact Or.inr (Or.inr rfl)

/-- Witness for C4: a concrete unsampled session with rate 1.0 and draw 0
upgrades to error-sampled on the first event and is left untouched by the
second. -/
theorem error_upgrade_one_shot_witness :
    (handleErrorEvent 0 exRates exUnsampled).sampled = .errorSampled ∧
      handleErrorEvent 0 exRates (handleErrorEvent 0 exRates exUnsampled) =
        handleErrorEvent 0 exRates exUnsampled :=
  (error_upgrade_one_shot 0 0 exRates exUnsampled).1 rfl (by decide)

/-- Settling a promise ledger: mapping the entry at key `k` to a fixed new
state and looking `k` up again yields that new state, whenever `k` was
present. -/
lemma findPromise_map_overwrite (k : Nat) (v : PromiseState) :
    ∀ (l : List (Nat × PromiseState)),
      (findPromise k l).isSome = true →
      findPromise k (l.map fun p => if p.1 = k then (p.1, v) else p) =
        some v := by
  intro l
  induction l with
  | nil => intro h; simp [findPromise] at h
  | cons a t ih =>
      intro h
      by_cases hk : a.1 = k
      · simp [findPromise, hk]
      · have ht : (findPromise k t).isSome = true := by
          simpa [findPromise, hk] using h
        simpa [findPromise, hk] using ih ht

/-- Claim C7: request ids are handed out monotonically (each new request
gets the previous id plus one); a response is matched to a pending promise
solely by id; a response whose id matches no pending entry, or that
arrives after `destroy()`, leaves the bridge (hence every pending promise)
unchanged; and a matched response with `success = false` rejects exactly
that promise with the carried payload as error detail. -/
theorem worker_bridge_correlation :
    ∀ (b : WorkerBridge) (m m2 : String) (a a2 : List String)
      (resp : WorkerResponse),
      ((b.postRequest m a).1.id = b.nextId ∧
        ((b.postRequest m a).2.postRequest m2 a2).1.id =
          (b.postRequest m a).1.id + 1) ∧
      (findPromise resp.id b.promises = none → b.handleResponse resp = b) ∧
      (b.destroyed = true → b.handleResponse resp = b) ∧
      (b.destroy.handleResponse resp = b.destroy) ∧
      (b.destroyed = false →
        findPromise resp.id b.promises = some .stillPending →
        resp.success = false →
        findPromise resp.id (b.handleResponse resp).promises =
          some (.rejectedWith resp.response)) := by
  intro b m m2 a a2 resp
  refine ⟨⟨rfl, rfl⟩, ?_, ?_, ?_, ?_⟩
  · intro h
    by_cases hd : b.destroyed <;>
      simp [WorkerBridge.handleResponse, hd, h]
  · intro h
    simp [WorkerBridge.handleResponse, h]
  · simp [WorkerBridge.destroy, WorkerBridge.handleResponse]
  · intro hd hl hs
    simp only [WorkerBridge.handleResponse, hd, hl, hs, Bool.false_eq_true,
      if_false]
    exact findPromise_map_overwrite resp.id _ b.promises (by simp [hl])

/-- Witness for C7: on a concrete bridge with pending request id 0, the
failed response for id 0 rejects that promise with the carried payload. -/
theorem worker_bridge_correlation_witness :
    findPromise exResponse.id (exBridge.handleResponse exResponse).promises =
      some (.rejectedWith exResponse.response) :=
  (worker_bridge_correlation exBridge "m" "m" [] [] exResponse).2.2.2.2
    rfl rfl rfl

/-- Claim C9: `checkAndHandleExpiredSession` returns whether the session
was rotated (true iff a session exists and is expired), performs no flush
(the event buffer is untouched and no send is produced), and on rotation
the replacement session starts at segment 0. -/
theorem checkAndHandleExpiredSession_reports_rotation_without_flush :
    ∀ (freshId : String) (draw : Rat) (now idleTimeout maxAge : Nat)
      (c : ContainerState),
      ((checkAndHandleExpiredSession freshId draw now idleTimeout maxAge
          c).1.eventBuffer = c.eventBuffer) ∧
      ((checkAndHandleExpiredSession freshId draw now idleTimeout maxAge
          c).2 = true ↔
        ∃ s, c.session = some s ∧
          sessionExpired s now idleTimeout maxAge = true) ∧
      ((checkAndHandleExpiredSession freshId draw now idleTimeout maxAge
          c).2 = true →
        ∃ s2, (checkAndHandleExpiredSession freshId draw now idleTimeout
            maxAge c).1.session = some s2 ∧ s2.segmentId = 0) := by
  intro freshId draw now idleTimeout maxAge c
  cases hs : c.session with
  | none => simp [checkAndHandleExpiredSession, hs]
  | some s =>
      by_cases he : sessionExpired s now idleTimeout maxAge = true
      · simp [checkAndHandleExpiredSession, hs, he, rotateSession]
      · simp only [Bool.not_eq_true] at he
        simp [checkAndHandleExpiredSession, hs, he]

/-- Witness for C9: a concrete long-idle container rotates, and the
replacement session sits at segment 0. -/
theorem checkAndHandleExpiredSession_reports_rotation_without_flush_witness :
    ∃ s2,
      (checkAndHandleExpiredSession "s2" 0 1000000 1000 5000
          exExpiredContainer).1.session = some s2 ∧ s2.segmentId = 0 :=
  (checkAndHandleExpiredSession_reports_rotation_without_flush "s2" 0
      1000000 1000 5000 exExpiredContainer).2.2 (by decide)

/-- Claim C10: the container interface admits states with no session and
no buffer (`session` is optional, `eventBuffer` nullable); in such a state
`getSessionId()` returns undefined, and the container operations stay
total — expiry checking reports no rotation and activity ticks are
no-ops, rather than requiring a session or buffer to be present. -/
theorem container_operations_total_without_session :
    ∀ (freshId : String) (draw : Rat) (now idleTimeout maxAge : Nat)
      (c : ContainerState),
      c.session = none →
      (c.getSessionId = none ∧
        checkAndHandleExpiredSession freshId draw now idleTimeout maxAge c =
          (c, false) ∧
        c.triggerUserActivity now = c ∧
        c.isEnabled = c.enabled ∧ c.isPaused = c.paused) := by
  intro freshId draw now idleTimeout maxAge c h
  refine ⟨?_, ?_, ?_, rfl, rfl⟩
  · simp [ContainerState.getSessionId, h]
  · simp [checkAndHandleExpiredSession, h]
  · simp [ContainerState.triggerUserActivity, h]

/-- Witness for C10: the concrete container with no session and no buffer
answers undefined for the session id and is inert under the expiry check
and activity ticks. -/
theorem container_operations_total_without_session_witness :
    exEmptyContainer.eventBuffer = none ∧
      exEmptyContainer.getSessionId = none ∧
      checkAndHandleExpiredSession "x" 0 7 1 1 exEmptyContainer =
        (exEmptyContainer, false) ∧
      exEmptyContainer.triggerUserActivity 7 = exEmptyContainer :=
  ⟨rfl,
    (container_operations_total_without_session "x" 0 7 1 1
        exEmptyContainer rfl).1,
    (container_operations_total_without_session "x" 0 7 1 1
        exEmptyContainer rfl).2.1,
    (container_operations_total_without_session "x" 0 7 1 1
        exEmptyContainer rfl).2.2.1⟩
